import Mathlib

/-!
Verification of the `utility_file_downloader` managed resource
(`frontiersgg/terraform-provider-utility`).

The development shallowly embeds the provider's reconciliation core:
the `downloadFile` helper and the `Create` / `Read` / `Update` / `Delete`
lifecycle handlers of `fileDownloaderResource`.  External effects
(HTTP and the filesystem) are modelled explicitly: the HTTP transport is
an oracle passed to each operation, the filesystem is a map from paths
to byte contents, and every operation additionally returns the ordered
trace of the I/O events it performed, so that ordering and frame
properties can be stated directly.
-/

namespace Utility

/-- Byte sequences are modelled as lists of byte values. -/
abbrev Bytes := List Nat

/-- Hex digit for a value below 16. -/
def hexDigit (n : Nat) : String :=
  (["0", "1", "2", "3", "4", "5", "6", "7",
    "8", "9", "a", "b", "c", "d", "e", "f"].getD n "0")

/-- Lowercase hexadecimal rendering of one byte. -/
def hexByte (n : Nat) : String :=
  hexDigit (n / 16 % 16) ++ hexDigit (n % 16)

/-- Lowercase hexadecimal rendering of a byte sequence. -/
def hexOfBytes (bs : Bytes) : String :=
  String.join (bs.map hexByte)

/-- Modelled from the spec: the Checksum Engine's SHA-1 digest.  The source
file defining `genFileChecksums` is not part of the repository snapshot
(only its callers in the lifecycle handlers are), and the spec constrains it
to a deterministic pure function from a byte sequence to a lowercase
hexadecimal string.  We model the digest as a deterministic injective
lowercase-hex encoding of the bytes, tagged so that the two digests of the
pair never coincide; no claim depends on the concrete digest values, only on
determinism and on equality comparisons between digests of byte sequences. -/
def sha1Hex (bs : Bytes) : String :=
  "sha1-" ++ hexOfBytes bs

/-- Modelled from the spec: the Checksum Engine's SHA-256 digest, under the
same modelling as `sha1Hex`. -/
def sha256Hex (bs : Bytes) : String :=
  "sha256-" ++ hexOfBytes bs

/-- Result record of the checksum engine (`fileChecksums` in the source). -/
structure FileChecksums where
  sha1Hex : String
  sha256Hex : String
deriving Repr, DecidableEq

/-- Modelled from the spec: `genFileChecksums` packages the two digests of a
byte buffer into a `fileChecksums` record. -/
def genFileChecksums (bs : Bytes) : FileChecksums :=
  { sha1Hex := sha1Hex bs, sha256Hex := sha256Hex bs }

/-- An HTTP response as observed by `downloadFile`: the numeric status code
(`resp.StatusCode`), the status line (`resp.Status`, e.g. "404 Not Found"),
and the body, whose read (`io.ReadAll(resp.Body)`) may itself fail. -/
structure HttpResponse where
  statusCode : Nat
  status : String
  body : Except String Bytes
deriving Repr

/-- Outcome of one HTTP round trip.  `transportError` covers both request
construction failures (`http.NewRequest`) and transport failures
(`client.Do`): in both cases `downloadFile` returns the error before
touching the filesystem. -/
inductive HttpResult where
  | transportError (msg : String)
  | response (r : HttpResponse)
deriving Repr

/-- The HTTP transport, modelled as an oracle from method, URL and the
flattened header pairs to the outcome of the single request issued. -/
abbrev Http := String → String → List (String × String) → HttpResult

/-- The filesystem, modelled as a map from paths to file contents.
`none` means the file does not exist (`os.IsNotExist` on `os.Stat`). -/
abbrev FS := String → Option Bytes

/-- Parent directory of a path (`filepath.Dir`), modelled as the path up to
(and excluding) the last separator, "." when there is none; no claim
depends on its edge cases. -/
def dirOf (path : String) : String :=
  match path.data.reverse.dropWhile (fun c => c ≠ '/') with
  | [] => "."
  | _ :: rest => String.mk rest.reverse

/-- The observable I/O events of one lifecycle invocation, in order:
issuing the HTTP request, `os.MkdirAll`, `os.Create` (which creates or
truncates the destination), `io.ReadAll` of the response body, the checksum
computation, and `out.Write` of the buffered bytes. -/
inductive Event where
  | fetch (method url : String)
  | mkdirAll (dir : String)
  | createFile (path : String)
  | readBody
  | hash
  | writeFile (path : String) (bs : Bytes)
deriving Repr, DecidableEq

/-- Outcome of `downloadFile`: the returned value (checksums or error
message), the filesystem after the call, and the ordered event trace. -/
structure DownloadOutcome where
  result : Except String FileChecksums
  fs : FS
  trace : List Event

/-- Embedding of `downloadFile(method, url, path, headers)`:
build and issue the request; on transport failure return the error; on a
status other than 200 return `"failed to download file: " ++ resp.Status`;
otherwise ensure the parent directory exists, create (truncate) the
destination file, buffer the entire body, compute the checksums from the
buffered bytes, and finally write the bytes to the file. -/
def downloadFile (http : Http) (fs : FS) (method url path : String)
    (headers : List (String × String)) : DownloadOutcome :=
  match http method url headers with
  | .transportError msg =>
      { result := .error msg
        fs := fs
        trace := [.fetch method url] }
  | .response r =>
      if r.statusCode ≠ 200 then
        { result := .error ("failed to download file: " ++ r.status)
          fs := fs
          trace := [.fetch method url] }
      else
        let fs1 : FS := fun p => if p = path then some [] else fs p
        match r.body with
        | .error msg =>
            { result := .error msg
              fs := fs1
              trace := [.fetch method url, .mkdirAll (dirOf path),
                        .createFile path, .readBody] }
        | .ok bs =>
            let cks := genFileChecksums bs
            let fs2 : FS := fun p => if p = path then some bs else fs1 p
            { result := .ok cks
              fs := fs2
              trace := [.fetch method url, .mkdirAll (dirOf path),
                        .createFile path, .readBody, .hash,
                        .writeFile path bs] }

/-- The resource state record (`fileResourceModel`).  Framework-nullable
attributes are modelled as `Option`; `ValueString`/`ValueBool` of a null
value are the zero values `""`/`false`, matched by `Option.getD`. -/
structure FileResourceModel where
  url : String
  filename : String
  method : Option String
  headers : List (String × String)
  force_download : Option Bool
  id : String
  sha1 : String
  sha256 : String
deriving Repr, DecidableEq

/-- Severity of a diagnostic. -/
inductive Severity where
  | error
  | warning
deriving Repr, DecidableEq

/-- A diagnostic returned to the framework: a summary and a detail. -/
structure Diagnostic where
  severity : Severity
  summary : String
  detail : String
deriving Repr, DecidableEq

/-- Whether a diagnostics list contains an error (the framework persists the
response state only when it does not). -/
def hasError (ds : List Diagnostic) : Bool :=
  ds.any (fun d => d.severity = Severity.error)

/-- Outcome of one lifecycle handler: the filesystem after the call, the
diagnostics added, the state carried by the response (`none` after
`RemoveResource`, or when a failed Create set no state), and the event
trace of the call. -/
structure OpOutcome where
  fs : FS
  diagnostics : List Diagnostic
  state : Option FileResourceModel
  trace : List Event

/-- Uppercasing of a method string (`strings.ToUpper`), modelled
character-wise over ASCII; the schema restricts the attribute to "GET" or
"POST", on which this agrees with the source. -/
def toUpper (s : String) : String :=
  String.mk (s.data.map Char.toUpper)

/-- Method defaulting, inlined identically in `Create`, `Read` and `Update`:
start from "GET" and, when the attribute is neither null nor the empty
string, use the uppercased attribute value. -/
def resolveMethod (m : Option String) : String :=
  match m with
  | none => "GET"
  | some s => if s = "" then "GET" else toUpper s

/-- Embedding of `fileDownloaderResource.Create`: download with the plan's
values; on failure add the "Download Failed" error and set no state; on
success persist the plan with `id`, `sha1`, `sha256` from the checksums. -/
def create (http : Http) (fs : FS) (plan : FileResourceModel) : OpOutcome :=
  let method := resolveMethod plan.method
  let d := downloadFile http fs method plan.url plan.filename plan.headers
  match d.result with
  | .error msg =>
      { fs := d.fs
        diagnostics := [{ severity := .error
                          summary := "Download Failed"
                          detail := msg }]
        state := none
        trace := d.trace }
  | .ok cks =>
      { fs := d.fs
        diagnostics := []
        state := some { plan with
                        id := cks.sha1Hex
                        sha1 := cks.sha1Hex
                        sha256 := cks.sha256Hex }
        trace := d.trace }

/-- Embedding of `fileDownloaderResource.Read`: if the file at the state's
filename does not exist, remove the resource from state and return;
otherwise re-download from the state's URL; on failure add the
"Download Failed" error (leaving the response state at the previous state);
if the fresh SHA-1 differs from the stored `id`, remove the resource from
state; otherwise persist the state with refreshed checksums. -/
def read (http : Http) (fs : FS) (state : FileResourceModel) : OpOutcome :=
  match fs state.filename with
  | none =>
      { fs := fs, diagnostics := [], state := none, trace := [] }
  | some _ =>
    let method := resolveMethod state.method
    let d := downloadFile http fs method state.url state.filename state.headers
    match d.result with
    | .error msg =>
        { fs := d.fs
          diagnostics := [{ severity := .error
                            summary := "Download Failed"
                            detail := msg }]
          state := some state
          trace := d.trace }
    | .ok cks =>
        if cks.sha1Hex ≠ state.id then
          { fs := d.fs, diagnostics := [], state := none, trace := d.trace }
        else
          { fs := d.fs
            diagnostics := []
            state := some { state with
                            id := cks.sha1Hex
                            sha1 := cks.sha1Hex
                            sha256 := cks.sha256Hex }
            trace := d.trace }

/-- Embedding of `fileDownloaderResource.Update`: when the previous state's
`force_download` is false (a null attribute reads as false) and the planned
URL equals the state's URL, add the "same file" warning with the URL as
detail, persist the previous state unchanged, and return without any I/O;
otherwise download with the plan's values exactly as Create does. -/
def update (http : Http) (fs : FS) (plan state : FileResourceModel) :
    OpOutcome :=
  let method := resolveMethod plan.method
  if state.force_download.getD false = false ∧ plan.url = state.url then
    { fs := fs
      diagnostics := [{ severity := .warning
                        summary := "same file"
                        detail := plan.url }]
      state := some state
      trace := [] }
  else
    let d := downloadFile http fs method plan.url plan.filename plan.headers
    match d.result with
    | .error msg =>
        { fs := d.fs
          diagnostics := [{ severity := .error
                            summary := "Download Failed"
                            detail := msg }]
          state := some state
          trace := d.trace }
    | .ok cks =>
        { fs := d.fs
          diagnostics := []
          state := some { plan with
                          id := cks.sha1Hex
                          sha1 := cks.sha1Hex
                          sha256 := cks.sha256Hex }
          trace := d.trace }

/-- Embedding of `fileDownloaderResource.Delete`: best-effort removal of the
file at the state's filename; no diagnostics, no state. -/
def delete (fs : FS) (state : FileResourceModel) : OpOutcome :=
  { fs := fun p => if p = state.filename then none else fs p
    diagnostics := []
    state := none
    trace := [] }

/-- Index of the first occurrence of an event in a trace (the trace's length
when absent). -/
def eventIndex (e : Event) : List Event → Nat
  | [] => 0
  | x :: xs => if x = e then 0 else eventIndex e xs + 1

/-- Event `a` occurs strictly before event `b` in the trace. -/
def occursBefore (a b : Event) (tr : List Event) : Prop :=
  a ∈ tr ∧ b ∈ tr ∧ eventIndex a tr < eventIndex b tr

instance (a b : Event) (tr : List Event) : Decidable (occursBefore a b tr) := by
  unfold occursBefore; infer_instance

/-! Concrete fixtures used by witnesses and counterexamples. -/

/-- Empty filesystem. -/
def fsEmpty : FS := fun _ => none

/-- The three bytes of "abc". -/
def bodyAbc : Bytes := [97, 98, 99]

/-- Transport oracle answering every request with 200 and body "abc". -/
def httpOkAbc : Http := fun _ _ _ =>
  .response { statusCode := 200, status := "200 OK", body := .ok bodyAbc }

/-- The response served by `httpOkAbc`. -/
def respOkAbc : HttpResponse :=
  { statusCode := 200, status := "200 OK", body := .ok bodyAbc }

/-- Transport oracle answering every request with 404. -/
def http404 : Http := fun _ _ _ =>
  .response { statusCode := 404, status := "404 Not Found", body := .ok [] }

/-- The response served by `http404`. -/
def resp404 : HttpResponse :=
  { statusCode := 404, status := "404 Not Found", body := .ok [] }

/-- Transport oracle answering 200 but failing the body read. -/
def httpBodyFail : Http := fun _ _ _ =>
  .response { statusCode := 200, status := "200 OK"
              body := .error "unexpected EOF" }

/-- The response served by `httpBodyFail`. -/
def respBodyFail : HttpResponse :=
  { statusCode := 200, status := "200 OK", body := .error "unexpected EOF" }

/-- A plan with only the required attributes set. -/
def samplePlan : FileResourceModel :=
  { url := "http://h/a.bin"
    filename := "/tmp/out/a.bin"
    method := none
    headers := []
    force_download := none
    id := ""
    sha1 := ""
    sha256 := "" }

/-- The state persisted by a successful Create of `samplePlan` against
`httpOkAbc`. -/
def sampleState : FileResourceModel :=
  { samplePlan with
    id := sha1Hex bodyAbc
    sha1 := sha1Hex bodyAbc
    sha256 := sha256Hex bodyAbc }

/-- A plan that requests force_download = true. -/
def planForce : FileResourceModel :=
  { samplePlan with force_download := some true }

/-- A previous state whose force_download is false. -/
def stateNoForce : FileResourceModel :=
  { sampleState with force_download := some false }

/-- A previous state whose force_download is true. -/
def stateForce : FileResourceModel :=
  { sampleState with force_download := some true }

/-- A previous state whose stored id does not match the digest of the
currently served content. -/
def stateStale : FileResourceModel :=
  { sampleState with id := "stale", sha1 := "stale" }

/-- Filesystem holding a stale file at samplePlan's destination. -/
def fsWithFile : FS :=
  fun p => if p = "/tmp/out/a.bin" then some [0] else none

/-! Component lemmas describing each branch of `downloadFile`. -/

/-- In every branch of `downloadFile` the trace starts with the fetch event
carrying the resolved method and URL. -/
theorem downloadFile_trace_head (http : Http) (fs : FS)
    (method url path : String) (headers : List (String × String)) :
    (downloadFile http fs method url path headers).trace.head? =
      some (.fetch method url) := by
  unfold downloadFile
  rcases http method url headers with msg | r
  · rfl
  · by_cases h : r.statusCode = 200
    · rcases hb : r.body with msg | bs <;> simp [h, hb]
    · simp [h]

/-- On a non-200 response `downloadFile` returns the status-line error. -/
theorem downloadFile_non_ok_result (http : Http) (fs : FS)
    (method url path : String) (headers : List (String × String))
    (r : HttpResponse)
    (hr : http method url headers = .response r)
    (hst : r.statusCode ≠ 200) :
    (downloadFile http fs method url path headers).result =
      .error ("failed to download file: " ++ r.status) := by
  unfold downloadFile
  rw [hr]
  simp [hst]

/-- On a non-200 response `downloadFile` leaves the filesystem untouched. -/
theorem downloadFile_non_ok_fs (http : Http) (fs : FS)
    (method url path : String) (headers : List (String × String))
    (r : HttpResponse)
    (hr : http method url headers = .response r)
    (hst : r.statusCode ≠ 200) :
    (downloadFile http fs method url path headers).fs = fs := by
  unfold downloadFile
  rw [hr]
  simp [hst]

/-- On a non-200 response the only event is the fetch itself. -/
theorem downloadFile_non_ok_trace (http : Http) (fs : FS)
    (method url path : String) (headers : List (String × String))
    (r : HttpResponse)
    (hr : http method url headers = .response r)
    (hst : r.statusCode ≠ 200) :
    (downloadFile http fs method url path headers).trace =
      [.fetch method url] := by
  unfold downloadFile
  rw [hr]
  simp [hst]

/-- On a 200 response with a successful body read, `downloadFile` returns
the checksums of the buffered bytes. -/
theorem downloadFile_ok_result (http : Http) (fs : FS)
    (method url path : String) (headers : List (String × String))
    (r : HttpResponse) (bs : Bytes)
    (hr : http method url headers = .response r)
    (hs : r.statusCode = 200) (hb : r.body = .ok bs) :
    (downloadFile http fs method url path headers).result =
      .ok (genFileChecksums bs) := by
  unfold downloadFile
  rw [hr]
  simp [hs, hb]

/-- On a 200 response with a successful body read, the destination file
ends up holding exactly the fetched bytes. -/
theorem downloadFile_ok_fs (http : Http) (fs : FS)
    (method url path : String) (headers : List (String × String))
    (r : HttpResponse) (bs : Bytes)
    (hr : http method url headers = .response r)
    (hs : r.statusCode = 200) (hb : r.body = .ok bs) :
    (downloadFile http fs method url path headers).fs =
      fun p => if p = path then some bs else fs p := by
  unfold downloadFile
  rw [hr]
  simp only [hs, hb]
  funext p
  by_cases hp : p = path <;> simp [hp]

/-- On a 200 response with a successful body read the events are, in
order: fetch, mkdir, create/truncate, body read, hash, write. -/
theorem downloadFile_ok_trace (http : Http) (fs : FS)
    (method url path : String) (headers : List (String × String))
    (r : HttpResponse) (bs : Bytes)
    (hr : http method url headers = .response r)
    (hs : r.statusCode = 200) (hb : r.body = .ok bs) :
    (downloadFile http fs method url path headers).trace =
      [.fetch method url, .mkdirAll (dirOf path), .createFile path,
       .readBody, .hash, .writeFile path bs] := by
  unfold downloadFile
  rw [hr]
  simp [hs, hb]

/-- On a 200 response whose body read fails, `downloadFile` returns the
read error. -/
theorem downloadFile_body_err_result (http : Http) (fs : FS)
    (method url path : String) (headers : List (String × String))
    (r : HttpResponse) (msg : String)
    (hr : http method url headers = .response r)
    (hs : r.statusCode = 200) (hb : r.body = .error msg) :
    (downloadFile http fs method url path headers).result = .error msg := by
  unfold downloadFile
  rw [hr]
  simp [hs, hb]

/-- On a 200 response whose body read fails, the destination file has
already been created/truncated and is left empty. -/
theorem downloadFile_body_err_fs (http : Http) (fs : FS)
    (method url path : String) (headers : List (String × String))
    (r : HttpResponse) (msg : String)
    (hr : http method url headers = .response r)
    (hs : r.statusCode = 200) (hb : r.body = .error msg) :
    (downloadFile http fs method url path headers).fs =
      fun p => if p = path then some [] else fs p := by
  unfold downloadFile
  rw [hr]
  simp [hs, hb]

/-- On a 200 response whose body read fails the events are: fetch, mkdir,
create/truncate, body read. -/
theorem downloadFile_body_err_trace (http : Http) (fs : FS)
    (method url path : String) (headers : List (String × String))
    (r : HttpResponse) (msg : String)
    (hr : http method url headers = .response r)
    (hs : r.statusCode = 200) (hb : r.body = .error msg) :
    (downloadFile http fs method url path headers).trace =
      [.fetch method url, .mkdirAll (dirOf path), .createFile path,
       .readBody] := by
  unfold downloadFile
  rw [hr]
  simp [hs, hb]

/-! Claim theorems. -/

/-- C1: when the previous state's force_download is false (a null attribute
reads as false) and the planned URL equals the state's URL, Update adds
exactly one warning diagnostic with summary "same file", persists the
previous state unchanged, leaves the filesystem untouched and performs no
I/O event at all (downloadFile is not called). -/
theorem update_same_url_skip (http : Http) (fs : FS)
    (plan state : FileResourceModel)
    (hforce : state.force_download.getD false = false)
    (hurl : plan.url = state.url) :
    (update http fs plan state).diagnostics =
      [{ severity := .warning, summary := "same file", detail := plan.url }] ∧
    (update http fs plan state).state = some state ∧
    (update http fs plan state).fs = fs ∧
    (update http fs plan state).trace = [] := by
  unfold update
  rw [if_pos ⟨hforce, hurl⟩]
  exact ⟨rfl, rfl, rfl, rfl⟩

/-- Witness for C1 at concrete inputs. -/
theorem update_same_url_skip_witness :
    (update httpOkAbc fsEmpty samplePlan sampleState).diagnostics =
      [{ severity := .warning, summary := "same file"
         detail := samplePlan.url }] ∧
    (update httpOkAbc fsEmpty samplePlan sampleState).state =
      some sampleState ∧
    (update httpOkAbc fsEmpty samplePlan sampleState).fs = fsEmpty ∧
    (update httpOkAbc fsEmpty samplePlan sampleState).trace = [] :=
  update_same_url_skip httpOkAbc fsEmpty samplePlan sampleState rfl rfl

/-- C2 counterexample: an Update request whose plan carries
force_download = true and whose planned URL equals the previous state's
URL still takes the skip branch when the previous state's force_download
is false: the skip condition reads the previous state's flag, so no fetch
event occurs and the "same file" warning is emitted instead. -/
theorem update_plan_force_download_ignored :
    planForce.force_download = some true ∧
    planForce.url = stateNoForce.url ∧
    (update httpOkAbc fsEmpty planForce stateNoForce).trace = [] ∧
    (update httpOkAbc fsEmpty planForce stateNoForce).diagnostics =
      [{ severity := .warning, summary := "same file"
         detail := planForce.url }] :=
  ⟨rfl, rfl, rfl, rfl⟩

/-- C2 amended: when the PREVIOUS STATE's force_download is true and the
planned URL equals the state's URL, Update does not take the skip branch:
it performs the fetch (its trace is the downloadFile trace, which starts
with the fetch event) and, when the download succeeds, the destination
file is rewritten with the fetched bytes. -/
theorem update_state_force_download_fetches (http : Http) (fs : FS)
    (plan state : FileResourceModel)
    (hforce : state.force_download.getD false = true)
    (hurl : plan.url = state.url) :
    (update http fs plan state).trace =
      (downloadFile http fs (resolveMethod plan.method) plan.url
        plan.filename plan.headers).trace ∧
    (update http fs plan state).trace.head? =
      some (.fetch (resolveMethod plan.method) plan.url) ∧
    (∀ r : HttpResponse, ∀ bs : Bytes,
      http (resolveMethod plan.method) plan.url plan.headers = .response r →
      r.statusCode = 200 → r.body = .ok bs →
      (update http fs plan state).fs plan.filename = some bs) := by
  have hcond : ¬ (state.force_download.getD false = false ∧
      plan.url = state.url) := by
    rw [hforce]; simp
  unfold update
  rw [if_neg hcond]
  refine ⟨?_, ?_, ?_⟩
  · rcases hd : (downloadFile http fs (resolveMethod plan.method) plan.url
        plan.filename plan.headers).result with msg | cks <;> simp [hd]
  · rcases hd : (downloadFile http fs (resolveMethod plan.method) plan.url
        plan.filename plan.headers).result with msg | cks <;>
      simp [hd, downloadFile_trace_head]
  · intro r bs hr hs hb
    have h1 := downloadFile_ok_result http fs (resolveMethod plan.method)
      plan.url plan.filename plan.headers r bs hr hs hb
    have h2 := downloadFile_ok_fs http fs (resolveMethod plan.method)
      plan.url plan.filename plan.headers r bs hr hs hb
    simp [h1, h2]

/-- Witness for the amended C2 at concrete inputs. -/
theorem update_state_force_download_fetches_witness :
    (update httpOkAbc fsEmpty samplePlan stateForce).trace.head? =
      some (.fetch "GET" "http://h/a.bin") ∧
    (update httpOkAbc fsEmpty samplePlan stateForce).fs "/tmp/out/a.bin" =
      some bodyAbc := by
  have h := update_state_force_download_fetches httpOkAbc fsEmpty samplePlan
    stateForce rfl rfl
  exact ⟨h.2.1, h.2.2 respOkAbc bodyAbc rfl rfl rfl⟩

/-- C3 counterexample: in a concrete successful invocation the trace is
fetch, mkdir, create/truncate, body read, hash, write: the checksum event
occurs strictly before the write event, refuting the claim that the write
to the destination completes before the checksums are computed. -/
theorem hash_precedes_write_cex :
    (downloadFile httpOkAbc fsEmpty "GET" "http://h/a.bin"
      "/tmp/out/a.bin" []).trace =
      [.fetch "GET" "http://h/a.bin", .mkdirAll "/tmp/out",
       .createFile "/tmp/out/a.bin", .readBody, .hash,
       .writeFile "/tmp/out/a.bin" bodyAbc] ∧
    occursBefore .hash (.writeFile "/tmp/out/a.bin" bodyAbc)
      (downloadFile httpOkAbc fsEmpty "GET" "http://h/a.bin"
        "/tmp/out/a.bin" []).trace ∧
    ¬ occursBefore (.writeFile "/tmp/out/a.bin" bodyAbc) .hash
      (downloadFile httpOkAbc fsEmpty "GET" "http://h/a.bin"
        "/tmp/out/a.bin" []).trace :=
  ⟨by decide, by decide, by decide⟩

/-- C3 amended: within a single fetching invocation that succeeds, the
operations are strictly ordered: the destination is created/truncated
first, then the entire body is buffered, then the checksums are computed
from the buffered bytes, and only after the checksum computation does the
write to the destination file happen. -/
theorem download_event_order (http : Http) (fs : FS)
    (method url path : String) (headers : List (String × String))
    (r : HttpResponse) (bs : Bytes)
    (hr : http method url headers = .response r)
    (hs : r.statusCode = 200)
    (hb : r.body = .ok bs) :
    (downloadFile http fs method url path headers).trace =
      [.fetch method url, .mkdirAll (dirOf path), .createFile path,
       .readBody, .hash, .writeFile path bs] ∧
    occursBefore .readBody .hash
      (downloadFile http fs method url path headers).trace ∧
    occursBefore .hash (.writeFile path bs)
      (downloadFile http fs method url path headers).trace := by
  have htr := downloadFile_ok_trace http fs method url path headers r bs
    hr hs hb
  refine ⟨htr, ?_, ?_⟩ <;> rw [htr] <;> simp [occursBefore, eventIndex]

/-- Witness for the amended C3 at concrete inputs. -/
theorem download_event_order_witness :
    (downloadFile httpOkAbc fsEmpty "POST" "http://h/b.bin"
      "/tmp/out/b.bin" []).trace =
      [.fetch "POST" "http://h/b.bin", .mkdirAll (dirOf "/tmp/out/b.bin"),
       .createFile "/tmp/out/b.bin", .readBody, .hash,
       .writeFile "/tmp/out/b.bin" bodyAbc] ∧
    occursBefore .readBody .hash
      (downloadFile httpOkAbc fsEmpty "POST" "http://h/b.bin"
        "/tmp/out/b.bin" []).trace ∧
    occursBefore .hash (.writeFile "/tmp/out/b.bin" bodyAbc)
      (downloadFile httpOkAbc fsEmpty "POST" "http://h/b.bin"
        "/tmp/out/b.bin" []).trace :=
  download_event_order httpOkAbc fsEmpty "POST" "http://h/b.bin"
    "/tmp/out/b.bin" [] respOkAbc bodyAbc rfl rfl rfl

/-- C4: on any Create, Read or Update whose HTTP response has a status
other than 200 (any non-200, e.g. other 2xx/3xx, 404, 500), the operation
fails with a "Download Failed" diagnostic whose detail carries the status
line, the filesystem is completely unchanged (no file created, truncated
or overwritten), and the only event is the fetch itself. -/
theorem non_ok_status_fails (http : Http) (fs : FS) :
    (∀ plan : FileResourceModel, ∀ r : HttpResponse,
      http (resolveMethod plan.method) plan.url plan.headers = .response r →
      r.statusCode ≠ 200 →
      (create http fs plan).diagnostics =
        [{ severity := .error, summary := "Download Failed"
           detail := "failed to download file: " ++ r.status }] ∧
      (create http fs plan).state = none ∧
      (create http fs plan).fs = fs ∧
      (create http fs plan).trace =
        [.fetch (resolveMethod plan.method) plan.url]) ∧
    (∀ state : FileResourceModel, ∀ r : HttpResponse, ∀ prev : Bytes,
      fs state.filename = some prev →
      http (resolveMethod state.method) state.url state.headers =
        .response r →
      r.statusCode ≠ 200 →
      (read http fs state).diagnostics =
        [{ severity := .error, summary := "Download Failed"
           detail := "failed to download file: " ++ r.status }] ∧
      (read http fs state).state = some state ∧
      (read http fs state).fs = fs ∧
      (read http fs state).trace =
        [.fetch (resolveMethod state.method) state.url]) ∧
    (∀ plan state : FileResourceModel, ∀ r : HttpResponse,
      (state.force_download.getD false = true ∨ plan.url ≠ state.url) →
      http (resolveMethod plan.method) plan.url plan.headers = .response r →
      r.statusCode ≠ 200 →
      (update http fs plan state).diagnostics =
        [{ severity := .error, summary := "Download Failed"
           detail := "failed to download file: " ++ r.status }] ∧
      (update http fs plan state).state = some state ∧
      (update http fs plan state).fs = fs ∧
      (update http fs plan state).trace =
        [.fetch (resolveMethod plan.method) plan.url]) := by
  refine ⟨?_, ?_, ?_⟩
  · intro plan r hr hst
    have h1 := downloadFile_non_ok_result http fs (resolveMethod plan.method)
      plan.url plan.filename plan.headers r hr hst
    have h2 := downloadFile_non_ok_fs http fs (resolveMethod plan.method)
      plan.url plan.filename plan.headers r hr hst
    have h3 := downloadFile_non_ok_trace http fs (resolveMethod plan.method)
      plan.url plan.filename plan.headers r hr hst
    simp [create, h1, h2, h3]
  · intro state r prev hfile hr hst
    have h1 := downloadFile_non_ok_result http fs (resolveMethod state.method)
      state.url state.filename state.headers r hr hst
    have h2 := downloadFile_non_ok_fs http fs (resolveMethod state.method)
      state.url state.filename state.headers r hr hst
    have h3 := downloadFile_non_ok_trace http fs (resolveMethod state.method)
      state.url state.filename state.headers r hr hst
    simp [read, hfile, h1, h2, h3]
  · intro plan state r hskip hr hst
    have hcond : ¬ (state.force_download.getD false = false ∧
        plan.url = state.url) := by
      rcases hskip with h | h
      · rw [h]; simp
      · exact fun hc => h hc.2
    have h1 := downloadFile_non_ok_result http fs (resolveMethod plan.method)
      plan.url plan.filename plan.headers r hr hst
    have h2 := downloadFile_non_ok_fs http fs (resolveMethod plan.method)
      plan.url plan.filename plan.headers r hr hst
    have h3 := downloadFile_non_ok_trace http fs (resolveMethod plan.method)
      plan.url plan.filename plan.headers r hr hst
    unfold update
    rw [if_neg hcond]
    simp [h1, h2, h3]

/-- Witness for C4 (the Create part) at concrete inputs against a 404. -/
theorem non_ok_status_fails_witness :
    (create http404 fsEmpty samplePlan).diagnostics =
      [{ severity := .error, summary := "Download Failed"
         detail := "failed to download file: " ++ resp404.status }] ∧
    (create http404 fsEmpty samplePlan).state = none ∧
    (create http404 fsEmpty samplePlan).fs = fsEmpty ∧
    (create http404 fsEmpty samplePlan).trace =
      [.fetch (resolveMethod samplePlan.method) samplePlan.url] :=
  (non_ok_status_fails http404 fsEmpty).1 samplePlan resp404 rfl (by decide)

/-- C5: a Read whose state's filename has no file on disk removes the
resource from state, reports no diagnostic at all, performs no I/O event
(no fetch), and leaves the filesystem untouched. -/
theorem read_missing_file_removes_state (http : Http) (fs : FS)
    (state : FileResourceModel)
    (hfile : fs state.filename = none) :
    (read http fs state).state = none ∧
    (read http fs state).diagnostics = [] ∧
    (read http fs state).trace = [] ∧
    (read http fs state).fs = fs := by
  unfold read
  rw [hfile]
  exact ⟨rfl, rfl, rfl, rfl⟩

/-- Witness for C5 at concrete inputs. -/
theorem read_missing_file_removes_state_witness :
    (read httpOkAbc fsEmpty sampleState).state = none ∧
    (read httpOkAbc fsEmpty sampleState).diagnostics = [] ∧
    (read httpOkAbc fsEmpty sampleState).trace = [] ∧
    (read httpOkAbc fsEmpty sampleState).fs = fsEmpty :=
  read_missing_file_removes_state httpOkAbc fsEmpty sampleState rfl

/-- C6: on a Read whose file exists and whose re-fetch succeeds with bytes
bs, if sha1Hex bs differs from the stored id the resource is removed from
state with no diagnostic (and nothing persisted); if it is equal, the
state is persisted with id, sha1 and sha256 refreshed from the fetched
content. -/
theorem read_drift_detection (http : Http) (fs : FS)
    (state : FileResourceModel) (prev : Bytes) (r : HttpResponse)
    (bs : Bytes)
    (hfile : fs state.filename = some prev)
    (hr : http (resolveMethod state.method) state.url state.headers =
      .response r)
    (hs : r.statusCode = 200)
    (hb : r.body = .ok bs) :
    (sha1Hex bs ≠ state.id →
      (read http fs state).state = none ∧
      (read http fs state).diagnostics = []) ∧
    (sha1Hex bs = state.id →
      (read http fs state).state = some { state with
        id := sha1Hex bs, sha1 := sha1Hex bs, sha256 := sha256Hex bs } ∧
      (read http fs state).diagnostics = []) := by
  have h1 := downloadFile_ok_result http fs (resolveMethod state.method)
    state.url state.filename state.headers r bs hr hs hb
  constructor
  · intro hne
    simp [read, hfile, h1, genFileChecksums, hne]
  · intro heq
    simp [read, hfile, h1, genFileChecksums, heq]

/-- Witness for C6 (the drift branch) at concrete inputs. -/
theorem read_drift_detection_witness :
    (read httpOkAbc fsWithFile stateStale).state = none ∧
    (read httpOkAbc fsWithFile stateStale).diagnostics = [] := by
  have h := read_drift_detection httpOkAbc fsWithFile stateStale [0]
    respOkAbc bodyAbc rfl rfl rfl rfl
  exact h.1 (by decide)

/-- C7: the id/sha1 agreement invariant: a state persisted by Create
always has id = sha1; a state persisted by Read always has id = sha1
provided the previous state already satisfied it (the only branch reusing
the previous record verbatim is the fetch-error branch); a state persisted
by Update always has id = sha1 provided the previous state already
satisfied it (the skip and error branches reuse the previous record
verbatim, every other branch sets both fields to the fresh digest). -/
theorem persisted_id_eq_sha1 (http : Http) (fs : FS)
    (plan state : FileResourceModel) :
    (∀ s : FileResourceModel,
      (create http fs plan).state = some s → s.id = s.sha1) ∧
    (state.id = state.sha1 → ∀ s : FileResourceModel,
      (read http fs state).state = some s → s.id = s.sha1) ∧
    (state.id = state.sha1 → ∀ s : FileResourceModel,
      (update http fs plan state).state = some s → s.id = s.sha1) := by
  refine ⟨?_, ?_, ?_⟩
  · intro s hs
    rcases hd : (downloadFile http fs (resolveMethod plan.method) plan.url
        plan.filename plan.headers).result with msg | cks <;>
      simp [create, hd] at hs
    · rw [← hs]
  · intro hinv s hs
    rcases hfile : fs state.filename with _ | prev <;>
      simp [read, hfile] at hs
    rcases hd : (downloadFile http fs (resolveMethod state.method) state.url
        state.filename state.headers).result with msg | cks <;>
      simp [hd] at hs
    · rw [← hs]; exact hinv
    · by_cases hid : cks.sha1Hex = state.id
      · simp [hid] at hs
        rw [← hs]
      · simp [hid] at hs
  · intro hinv s hs
    by_cases hcond : state.force_download.getD false = false ∧
        plan.url = state.url
    · unfold update at hs
      rw [if_pos hcond] at hs
      simp at hs
      rw [← hs]; exact hinv
    · unfold update at hs
      rw [if_neg hcond] at hs
      rcases hd : (downloadFile http fs (resolveMethod plan.method) plan.url
          plan.filename plan.headers).result with msg | cks <;>
        simp [hd] at hs
      · rw [← hs]; exact hinv
      · rw [← hs]

/-- Witness for C7 (the Create part) at concrete inputs. -/
theorem persisted_id_eq_sha1_witness :
    sampleState.id = sampleState.sha1 :=
  (persisted_id_eq_sha1 httpOkAbc fsEmpty samplePlan sampleState).1
    sampleState rfl

/-- C8: the HTTP method used by every fetching Create, Read or Update is
the resolved method: "GET" when the attribute is null or the empty string,
and the given value for every schema-valid method ("GET" or "POST"). -/
theorem method_resolution (http : Http) (fs : FS)
    (plan state : FileResourceModel) :
    (create http fs plan).trace.head? =
      some (.fetch (resolveMethod plan.method) plan.url) ∧
    ((∃ prev, fs state.filename = some prev) →
      (read http fs state).trace.head? =
        some (.fetch (resolveMethod state.method) state.url)) ∧
    ((state.force_download.getD false = true ∨ plan.url ≠ state.url) →
      (update http fs plan state).trace.head? =
        some (.fetch (resolveMethod plan.method) plan.url)) ∧
    resolveMethod none = "GET" ∧
    resolveMethod (some "") = "GET" ∧
    (∀ m : String, m = "GET" ∨ m = "POST" → resolveMethod (some m) = m) := by
  refine ⟨?_, ?_, ?_, rfl, by decide, ?_⟩
  · rcases hd : (downloadFile http fs (resolveMethod plan.method) plan.url
        plan.filename plan.headers).result with msg | cks <;>
      simp [create, hd, downloadFile_trace_head]
  · intro hex
    rcases hex with ⟨prev, hfile⟩
    rcases hd : (downloadFile http fs (resolveMethod state.method) state.url
        state.filename state.headers).result with msg | cks
    · simp [read, hfile, hd, downloadFile_trace_head]
    · by_cases hid : cks.sha1Hex = state.id <;>
        simp [read, hfile, hd, hid, downloadFile_trace_head]
  · intro hskip
    have hcond : ¬ (state.force_download.getD false = false ∧
        plan.url = state.url) := by
      rcases hskip with h | h
      · rw [h]; simp
      · exact fun hc => h hc.2
    unfold update
    rw [if_neg hcond]
    rcases hd : (downloadFile http fs (resolveMethod plan.method) plan.url
        plan.filename plan.headers).result with msg | cks <;>
      simp [hd, downloadFile_trace_head]
  · rintro m (rfl | rfl) <;> decide

/-- Witness for C8 at concrete inputs. -/
theorem method_resolution_witness :
    (create httpOkAbc fsEmpty samplePlan).trace.head? =
      some (.fetch (resolveMethod samplePlan.method) samplePlan.url) ∧
    (read httpOkAbc fsWithFile sampleState).trace.head? =
      some (.fetch (resolveMethod sampleState.method) sampleState.url) ∧
    resolveMethod (some "POST") = "POST" := by
  refine ⟨(method_resolution httpOkAbc fsEmpty samplePlan sampleState).1,
    (method_resolution httpOkAbc fsWithFile samplePlan sampleState).2.1
      ⟨[0], rfl⟩,
    (method_resolution httpOkAbc fsEmpty samplePlan sampleState).2.2.2.2.2
      "POST" (Or.inr rfl)⟩

/-- C9: on a Read whose file exists and whose re-fetch succeeds, the file
at the state's filename is overwritten with the newly fetched bytes (the
write event is in the trace), so even when drift is detected and the
resource is removed from state, the on-disk file already holds the new
remote content. -/
theorem read_overwrites_before_drift_check (http : Http) (fs : FS)
    (state : FileResourceModel) (prev : Bytes) (r : HttpResponse)
    (bs : Bytes)
    (hfile : fs state.filename = some prev)
    (hr : http (resolveMethod state.method) state.url state.headers =
      .response r)
    (hs : r.statusCode = 200)
    (hb : r.body = .ok bs) :
    (read http fs state).fs state.filename = some bs ∧
    (.writeFile state.filename bs) ∈ (read http fs state).trace ∧
    (sha1Hex bs ≠ state.id →
      (read http fs state).state = none ∧
      (read http fs state).fs state.filename = some bs) := by
  have h1 := downloadFile_ok_result http fs (resolveMethod state.method)
    state.url state.filename state.headers r bs hr hs hb
  have h2 := downloadFile_ok_fs http fs (resolveMethod state.method)
    state.url state.filename state.headers r bs hr hs hb
  have h3 := downloadFile_ok_trace http fs (resolveMethod state.method)
    state.url state.filename state.headers r bs hr hs hb
  by_cases hid : (genFileChecksums bs).sha1Hex = state.id
  · constructor
    · simp [read, hfile, h1, hid, h2]
    · constructor
      · simp [read, hfile, h1, hid, h3]
      · intro hne
        exact absurd hid (by simpa [genFileChecksums] using hne)
  · refine ⟨?_, ?_, fun _ => ⟨?_, ?_⟩⟩ <;>
      simp [read, hfile, h1, hid, h2, h3]

/-- Witness for C9 (drift detected, file already replaced) at concrete
inputs. -/
theorem read_overwrites_before_drift_check_witness :
    (read httpOkAbc fsWithFile stateStale).fs "/tmp/out/a.bin" =
      some bodyAbc ∧
    (read httpOkAbc fsWithFile stateStale).state = none := by
  have h := read_overwrites_before_drift_check httpOkAbc fsWithFile
    stateStale [0] respOkAbc bodyAbc rfl rfl rfl rfl
  exact ⟨h.1, (h.2.2 (by decide)).1⟩

/-- C10: when the response status is 200 but reading the body fails, the
destination has already been created/truncated (the create event precedes
the body-read event, and the file is left empty), downloadFile returns the
read error, and a Create built on it reports the "Download Failed"
diagnostic and persists no state. -/
theorem body_read_failure_truncates (http : Http) (fs : FS)
    (method url path : String) (headers : List (String × String))
    (plan : FileResourceModel) (r : HttpResponse) (msg : String)
    (hr : http method url headers = .response r)
    (hs : r.statusCode = 200)
    (hb : r.body = .error msg)
    (hrp : http (resolveMethod plan.method) plan.url plan.headers =
      .response r) :
    ((downloadFile http fs method url path headers).result =
      .error msg ∧
     (downloadFile http fs method url path headers).fs path = some [] ∧
     (downloadFile http fs method url path headers).trace =
       [.fetch method url, .mkdirAll (dirOf path), .createFile path,
        .readBody] ∧
     occursBefore (.createFile path) .readBody
       (downloadFile http fs method url path headers).trace) ∧
    ((create http fs plan).diagnostics =
       [{ severity := .error, summary := "Download Failed"
          detail := msg }] ∧
     (create http fs plan).state = none ∧
     (create http fs plan).fs plan.filename = some []) := by
  have h1 := downloadFile_body_err_result http fs method url path headers
    r msg hr hs hb
  have h2 := downloadFile_body_err_fs http fs method url path headers
    r msg hr hs hb
  have h3 := downloadFile_body_err_trace http fs method url path headers
    r msg hr hs hb
  have h1p := downloadFile_body_err_result http fs (resolveMethod plan.method)
    plan.url plan.filename plan.headers r msg hrp hs hb
  have h2p := downloadFile_body_err_fs http fs (resolveMethod plan.method)
    plan.url plan.filename plan.headers r msg hrp hs hb
  refine ⟨⟨h1, ?_, h3, ?_⟩, ?_⟩
  · simp [h2]
  · rw [h3]; simp [occursBefore, eventIndex]
  · simp [create, h1p, h2p]

/-- Witness for C10 at concrete inputs. -/
theorem body_read_failure_truncates_witness :
    ((downloadFile httpBodyFail fsEmpty "GET" "http://h/a.bin"
       "/tmp/out/a.bin" []).result = .error "unexpected EOF" ∧
     (downloadFile httpBodyFail fsEmpty "GET" "http://h/a.bin"
       "/tmp/out/a.bin" []).fs "/tmp/out/a.bin" = some [] ∧
     (downloadFile httpBodyFail fsEmpty "GET" "http://h/a.bin"
       "/tmp/out/a.bin" []).trace =
       [.fetch "GET" "http://h/a.bin", .mkdirAll (dirOf "/tmp/out/a.bin"),
        .createFile "/tmp/out/a.bin", .readBody] ∧
     occursBefore (.createFile "/tmp/out/a.bin") .readBody
       (downloadFile httpBodyFail fsEmpty "GET" "http://h/a.bin"
         "/tmp/out/a.bin" []).trace) ∧
    ((create httpBodyFail fsEmpty samplePlan).diagnostics =
       [{ severity := .error, summary := "Download Failed"
          detail := "unexpected EOF" }] ∧
     (create httpBodyFail fsEmpty samplePlan).state = none ∧
     (create httpBodyFail fsEmpty samplePlan).fs "/tmp/out/a.bin" =
       some []) :=
  body_read_failure_truncates httpBodyFail fsEmpty "GET" "http://h/a.bin"
    "/tmp/out/a.bin" [] samplePlan respBodyFail "unexpected EOF"
    rfl rfl rfl rfl
end Utility
